import Mathlib

/-!
Verification of the marrow.server socket-server bootstrap layer.

Shallow embedding of `marrow/server/base.py` (class `Server`) and
`marrow/server/protocol.py` (class `Protocol`).  Pure decision logic is
embedded as Lean functions; side-effecting code paths are embedded as
functions producing explicit event traces or explicit successor states.
Python exceptions are embedded with `Except`.
-/

set_option autoImplicit false

namespace Marrow

/-! ### Fork-count resolution (base.py, Server.start lines 154-157)

Python:
  if self.fork is None:
      self.fork = self.processors()
  elif self.fork < 1:
      self.fork = min(1, self.processors() + self.fork)

`fork = none` embeds Python `None`; `processors` is the detected
logical-processor count returned by `Server.processors`. -/

def Server.resolveFork (fork : Option Int) (processors : Int) : Int :=
  match fork with
  | none => processors
  | some f => if f < 1 then min 1 (processors + f) else f

/-- The resolution rule as the spec words it (section 8): requesting 0 or
unset yields exactly the detected logical-processor count; requesting -K
yields max(1, processors - K); a positive request is unchanged. -/
def Server.specResolveFork (fork : Option Int) (processors : Int) : Int :=
  match fork with
  | none => processors
  | some f =>
      if f = 0 then processors
      else if f < 0 then max 1 (processors + f)
      else f

/-! ### Accept dispatch (base.py Server._accept lines 253-256 and
protocol.py Protocol._accept lines 31-47)

The outcome of the OS-level `sock.accept()` call on a readiness event:
either a fresh connection or a `socket.error` carrying an errno. -/

inductive AcceptOutcome where
  | ok (conn : Nat)
  | err (eno : Nat)
  deriving DecidableEq, Repr

/-- Linux errno values; on this platform EAGAIN and EWOULDBLOCK coincide. -/
def EWOULDBLOCK : Nat := 11

def EAGAIN : Nat := 11

/-- errno for a connection aborted before accept, as a sample fatal error. -/
def ECONNABORTED : Nat := 103

/-- A raised Python exception, as relevant to the embedded paths. -/
inductive Exc where
  | socketError (eno : Nat)
  | gaierror
  deriving DecidableEq, Repr

/-- The external stream wrapper (tornado/marrow `iostream.IOStream`)
around a raw accepted connection. -/
structure IOStream where
  conn : Nat
  deriving DecidableEq, Repr

/-- `Server._accept` (base.py lines 253-256), the callback that
`Server.serve` registers with the reactor via `add_handler`:

  def _accept(self, fd, events):
      connection, address = self.socket.accept()
      stream = iostream.IOStream(connection, io_loop=self.io_loop)
      self.protocol.accept(stream)

There is no exception handling: any `socket.error` from `accept`
propagates.  The result is the list of invocations of the protocol
accept hook (each with the wrapped connection), or the propagated
exception. -/
def Server.acceptCallback (res : AcceptOutcome) : Except Exc (List IOStream) :=
  match res with
  | .ok conn => .ok [⟨conn⟩]
  | .err eno => .error (.socketError eno)

/-- `Protocol._accept` (protocol.py lines 31-47), the guarded dispatch:

  try:
      connection, address = sock.accept()
  except socket.error:
      exc = exception().exception
      if exc.args[0] not in (errno.EWOULDBLOCK, errno.EAGAIN):
          raise
      return
  client = self.client(connection, io_loop=self.testing or None)
  self.accept(client)
-/
def Protocol.acceptDispatch (res : AcceptOutcome) : Except Exc (List IOStream) :=
  match res with
  | .ok conn => .ok [⟨conn⟩]
  | .err eno =>
      if eno = EWOULDBLOCK ∨ eno = EAGAIN then .ok []
      else .error (.socketError eno)

/-! ### Socket creation (base.py Server._socket lines 217-251) -/

/-- Socket address families, as used by `_socket`. -/
inductive Family where
  | af_inet
  | af_inet6
  | other (n : Nat)
  deriving DecidableEq, Repr

/-- A socket address as produced by resolution: `(host, port)` for IPv4
and `(host, port, flowinfo, scopeid)` for IPv6. -/
inductive SockAddr where
  | v4 (host : String) (port : Nat)
  | v6 (host : String) (port : Nat) (flowinfo scopeid : Nat)
  deriving DecidableEq, Repr

/-- One entry of the `socket.getaddrinfo` result, as destructured by
`_socket`: (family, kind, protocol, name, sa).  The bound address `addr`
is always `(host, port)` in the source. -/
structure AddrInfo where
  family : Family
  kind : Nat
  protocol : Nat
  sa : SockAddr
  deriving DecidableEq, Repr

/-- Address resolution step of `_socket` (lines 225-231): the system
resolution result is `some info` on success and `none` when
`socket.getaddrinfo` raises `socket.gaierror`; on failure the family and
socket address are chosen from the literal host string:

  except socket.gaierror:
      if ':' in host:
          addr, family, ... , sa = ((host, port), ) + (socket.AF_INET6,
              socket.SOCK_STREAM, 0, "", (host, port, 0, 0))
      else:
          addr, family, ... , sa = ((host, port), ) + (socket.AF_INET,
              socket.SOCK_STREAM, 0, "", (host, port))
-/
def Server.resolveAddr (host : String) (port : Nat)
    (resolution : Option AddrInfo) : Family × SockAddr :=
  match resolution with
  | some info => (info.family, info.sa)
  | none =>
      if host.data.contains ':' then (.af_inet6, .v6 host port 0 0)
      else (.af_inet, .v4 host port)

/-- The family component of the resolution step. -/
def Server.resolveFamily (host : String) (port : Nat)
    (resolution : Option AddrInfo) : Family :=
  (Server.resolveAddr host port resolution).1

/-- The configured socket `_socket` returns. -/
structure Sock where
  family : Family
  cloexec : Bool
  reuseAddr : Bool
  noDelay : Bool
  blocking : Bool
  v6only : Bool
  deriving DecidableEq, Repr

/-- Environment of one `_socket` run: the resolution outcome, whether the
`socket.socket` constructor fails (unsupported family), and whether the
`IPV6_V6ONLY` setsockopt raises `AttributeError` or `socket.error`. -/
structure SocketEnv where
  resolution : Option AddrInfo
  createFails : Bool
  v6onlyToggleFails : Bool
  deriving DecidableEq, Repr

/-- `Server._socket` (lines 217-251).  Returns the configured socket
paired with whether the dual-stack toggle was attempted, or the
propagated exception.  The dual-stack block is

  if family == socket.AF_INET6 and addr[0] in ('::', '::0', '::0.0.0.0'):
      try:
          sock.setsockopt(socket.IPPROTO_IPV6, socket.IPV6_V6ONLY, 0)
      except (AttributeError, socket.error):
          pass

where `addr[0]` is the host string. -/
def Server.socketFactory (host : String) (port : Nat) (env : SocketEnv) :
    Except Exc (Sock × Bool) :=
  if env.createFails then .error (.socketError 97)
  else if Server.resolveFamily host port env.resolution = .af_inet6 ∧
      (host = "::" ∨ host = "::0" ∨ host = "::0.0.0.0") then
    if env.v6onlyToggleFails then
      .ok ({ family := Server.resolveFamily host port env.resolution,
             cloexec := true, reuseAddr := true, noDelay := true,
             blocking := false, v6only := true }, true)
    else
      .ok ({ family := Server.resolveFamily host port env.resolution,
             cloexec := true, reuseAddr := true, noDelay := true,
             blocking := false, v6only := false }, true)
  else
    .ok ({ family := Server.resolveFamily host port env.resolution,
           cloexec := true, reuseAddr := true, noDelay := true,
           blocking := false, v6only := true }, false)

/-! ### Shutdown (base.py Server.stop lines 196-215)

Python:
  def stop(self, close=False, io_loop=None):
      log.info("Shutting down.")
      if self.threaded is not False:
          self.executor.shutdown()
      if self.io_loop is not None:
          # self.io_loop.remove_handler(self.socket.fileno())
          self.protocol.stop()
          if not io_loop: self.io_loop.stop()
          for callback in self.callbacks['stop']:
              callback(self)
      elif close:
          self.socket.close()
      log.info("Stopped.")

Note the `remove_handler` line is commented out in the source.  The
method assigns no attribute, so the server state is unchanged by a call.
We embed it as a trace of the observable actions it performs. -/

inductive StopEv where
  | executorShutdown
  | protocolStop
  | ioLoopStop
  | stopCallback (i : Nat)
  | removeHandler
  | socketClose
  deriving DecidableEq, Repr

/-- The per-call state `stop` reads (it writes none of it): whether a
thread pool was configured, whether `self.io_loop` was ever attached by
`serve`, and how many callbacks `self.callbacks['stop']` holds. -/
structure StopState where
  threaded : Bool
  ioLoopAttached : Bool
  nStopCallbacks : Nat
  deriving DecidableEq, Repr

/-- One call `stop(close, io_loop)`: the trace of actions, in execution
order.  `ioLoopArg` is whether the optional `io_loop` argument was
passed (truthy). -/
def Server.stopTrace (s : StopState) (close : Bool) (ioLoopArg : Bool) :
    List StopEv :=
  (if s.threaded then [StopEv.executorShutdown] else []) ++
  (if s.ioLoopAttached then
      [StopEv.protocolStop] ++
      (if ioLoopArg then [] else [StopEv.ioLoopStop]) ++
      (List.range s.nStopCallbacks).map StopEv.stopCallback
    else if close then [StopEv.socketClose] else [])

/-- `stop` performs no attribute assignment, so a call returns the trace
and the unchanged state; calling it again starts from the same state. -/
def Server.stopRun (s : StopState) (close : Bool) (ioLoopArg : Bool) :
    List StopEv × StopState :=
  (Server.stopTrace s close ioLoopArg, s)

/-- Two consecutive calls of `stop()` (both with default arguments), as
in the idempotence scenario: the combined trace of observable actions. -/
def Server.stopTwiceTrace (s : StopState) : List StopEv :=
  let r1 := Server.stopRun s false false
  let r2 := Server.stopRun r1.2 false false
  r1.1 ++ r2.1

/-- Events that are invocations of a shutdown hook: the protocol stop
hook or a registered server-level stop callback. -/
def StopEv.isHook : StopEv → Bool
  | .protocolStop => true
  | .stopCallback _ => true
  | _ => false

/-! ### Class-level callback container (base.py lines 48-49 and 51-79)

Python:
  class Server(object):
      protocol = None
      callbacks = {'start': [], 'stop': []}

`callbacks` is a class attribute, and `Server.__init__` (lines 51-79)
assigns `self.socket`, `self.io_loop`, `self.name`, `self.address`,
`self.protocol` (conditionally), `self.pool`, `self.fork`,
`self.threaded`, `self.options` - never `self.callbacks`.  We embed the
relevant fragment of Python attribute semantics: an attribute read finds
an instance binding if one exists, else the single class-level binding;
mutating the found list mutates the bound object in place. -/

/-- The single class-level `Server.callbacks` container contents. -/
structure CallbacksHeap where
  startList : List Nat
  stopList : List Nat
  deriving DecidableEq, Repr

/-- An instance as `__init__` leaves it, restricted to what attribute
lookup of `callbacks` needs: whether the instance dict carries its own
`callbacks` binding (with contents), or falls through to the class. -/
structure ServerObj where
  ownCallbacks : Option CallbacksHeap
  deriving DecidableEq, Repr

/-- `Server.__init__` (lines 51-79): no `self.callbacks` assignment. -/
def Server.init : ServerObj := { ownCallbacks := none }

/-- Reading `instance.callbacks['stop']` under Python attribute lookup. -/
def Server.readStopCallbacks (h : CallbacksHeap) (s : ServerObj) : List Nat :=
  match s.ownCallbacks with
  | some own => own.stopList
  | none => h.stopList

/-- `instance.callbacks['stop'].append(cb)`: mutates the list object the
lookup found; when the instance has no own binding that object is the
class-level list, so the class heap changes. -/
def Server.registerStopCallback (h : CallbacksHeap) (s : ServerObj) (cb : Nat) :
    CallbacksHeap × ServerObj :=
  match s.ownCallbacks with
  | some own =>
      (h, { s with ownCallbacks := some { own with stopList := own.stopList ++ [cb] } })
  | none => ({ h with stopList := h.stopList ++ [cb] }, s)

/-! ### Multi-process child path (base.py Server.start lines 167-177)

Python:
  for i in range(self.fork):
      if os.fork() == 0:
          try:
              random.seed(long(hexlify(os.urandom(16)), 16))
          except NotImplementedError:
              random.seed(int(time.time() * 1000) ^ os.getpid())
          self.serve(False)
          return
-/

/-- What a child observes from its environment: whether `os.urandom` is
implemented, the 16 bytes it would return, the clock and the pid. -/
structure ChildEnv where
  urandomAvailable : Bool
  urandomBytes : List Nat
  timeMs : Nat
  pid : Nat
  deriving DecidableEq, Repr

/-- `long(hexlify(bytes), 16)`: the bytes read big-endian as an integer. -/
def hexlifyVal (bytes : List Nat) : Nat :=
  bytes.foldl (fun acc b => acc * 256 + b) 0

/-- Actions a forked process can perform after its `os.fork()` returned
zero. -/
inductive ChildEv where
  | seed (n : Nat)
  | serve (master : Bool)
  | forkChild
  deriving DecidableEq, Repr

/-- The continuation a forked child runs (lines 169-177): reseed, serve
as a worker, return (so the enclosing `for` loop never resumes and no
further `os.fork` happens in the child). -/
def Server.childContinuation (env : ChildEnv) : List ChildEv :=
  (if env.urandomAvailable then [ChildEv.seed (hexlifyVal env.urandomBytes)]
   else [ChildEv.seed (env.timeMs ^^^ env.pid)]) ++
  [ChildEv.serve false]

/-! ### Startup ordering (base.py Server.start lines 142-194 and
Server.serve lines 100-141)

`start` creates the socket, binds, listens, resolves the fork count,
then either serves in-process (fork == 1) or forks; a child at loop
index `i` inherits the history up to and including its own fork and then
runs `serve(False)`; the parent forks all `n` children, waits, stops.
`serve` instantiates the protocol if needed, runs the protocol start
hook, the registered start callbacks, then `add_handler`.  We embed the
trace up to the blocking wait / reactor loop. -/

inductive StartEv where
  | createSocket
  | bind
  | listen
  | forkProc (i : Nat)
  | seedChild
  | instantiateProtocol
  | protocolStart
  | startCallback (i : Nat)
  | addHandler
  | waitChildren
  | stopCascade
  deriving DecidableEq, Repr

/-- Trace of `Server.serve` up to the registration of the accept
callback (lines 100-122): protocol instantiation when the attribute
is still a class, the protocol start hook, the start callbacks, then
`io_loop.add_handler`. -/
def Server.serveTrace (protocolIsClass : Bool) (nStartCallbacks : Nat) :
    List StartEv :=
  (if protocolIsClass then [StartEv.instantiateProtocol] else []) ++
  [StartEv.protocolStart] ++
  (List.range nStartCallbacks).map StartEv.startCallback ++
  [StartEv.addHandler]

/-- The role a process plays in one execution of `Server.start`. -/
inductive ProcRole where
  | master
  | child (i : Nat)
  deriving DecidableEq, Repr

/-- Trace of `Server.start` (lines 148-194) as observed by one process.
`forkResolved` is the fork count after resolution.  With
`forkResolved = 1` the calling process serves directly; otherwise the
master forks `forkResolved` children and waits, and the child forked at
loop index `i` carries the inherited history (socket setup and the forks
up to its own) followed by its reseed-and-serve continuation. -/
def Server.startTrace (forkResolved : Nat) (role : ProcRole)
    (protocolIsClass : Bool) (nStartCallbacks : Nat) : List StartEv :=
  [StartEv.createSocket, StartEv.bind, StartEv.listen] ++
  (if forkResolved = 1 then
      Server.serveTrace protocolIsClass nStartCallbacks
    else
      match role with
      | .child i =>
          ((List.range (i + 1)).map StartEv.forkProc) ++
          [StartEv.seedChild] ++
          Server.serveTrace protocolIsClass nStartCallbacks
      | .master =>
          ((List.range forkResolved).map StartEv.forkProc) ++
          [StartEv.waitChildren, StartEv.stopCascade])

/-! ### Protocol instantiation in serve (base.py lines 100-104 and
protocol.py Protocol lines 15-23)

Python (serve):
  self.io_loop = io_loop or ioloop.IOLoop.instance()
  if isclass(self.protocol):
      self.protocol = self.protocol(self, io_loop, **self.options)

Python (Protocol):
  def __init__(self, server, testing=False, **options):
      self.server = server
      self.testing = testing
      self.options = options
-/

/-- Python values that can reach the `testing` parameter. -/
inductive PyVal where
  | vFalse
  | vNone
  | vLoop (id : Nat)
  deriving DecidableEq, Repr

/-- The default of the second `Protocol.__init__` parameter `testing`. -/
def Protocol.testingDefault : PyVal := .vFalse

/-- A constructed `Protocol` instance. -/
structure ProtocolInst where
  server : Nat
  testing : PyVal
  options : List (String × Nat)
  deriving DecidableEq, Repr

/-- `Protocol.__init__` with all arguments supplied positionally /
as keywords, as `serve` calls it. -/
def Protocol.init (server : Nat) (testing : PyVal)
    (options : List (String × Nat)) : ProtocolInst :=
  { server := server, testing := testing, options := options }

/-- The `self.protocol` attribute: a class object or an instance. -/
inductive ProtocolSlot where
  | cls
  | inst (p : ProtocolInst)
  deriving DecidableEq, Repr

/-- The protocol-instantiation step of `serve` (lines 103-104): when the
attribute holds a class, call it with the server as first positional
argument, the raw `io_loop` parameter of `serve` as second positional
argument, and the free-form options as keywords; otherwise leave it.
Returns the new attribute value and how many instantiations this call
performed. -/
def Server.serveInstantiate (slot : ProtocolSlot) (server : Nat)
    (ioLoopArg : Option Nat) (options : List (String × Nat)) :
    ProtocolSlot × Nat :=
  match slot with
  | .cls =>
      (.inst (Protocol.init server
        (match ioLoopArg with | none => .vNone | some l => .vLoop l) options), 1)
  | .inst p => (.inst p, 0)

/-! ## Claims -/

/-- C1: Fork-count resolution in Server.start.  The claim says 0 resolves
to the processor count and -K to max(1, processors - K), always at least
1.  The code uses `min(1, processors + fork)` where its own docstring
(base.py line 58: fork None or less than 1 means detect the processor
count and fork that many copies) requires max-style clamping: with 4
processors, a requested 0 resolves to 1 instead of 4, a requested -1
resolves to 1 instead of 3, and with 2 processors a requested -5
resolves to -3, which is not a positive count at all.  `None` and
positive requests do behave as claimed. -/
theorem C1_fork_resolution_code_bug :
    Server.resolveFork (some 0) 4 = 1 ∧
    Server.specResolveFork (some 0) 4 = 4 ∧
    Server.resolveFork (some (-1)) 4 = 1 ∧
    Server.specResolveFork (some (-1)) 4 = 3 ∧
    Server.resolveFork (some (-5)) 2 = -3 ∧
    Server.resolveFork (some (-5)) 2 < 1 ∧
    Server.resolveFork none 4 = 4 ∧
    Server.resolveFork (some 3) 4 = 3 := by
  decide

/-- C2: The accept-dispatch callback that `Server.serve` registers with
the reactor is `Server._accept` (base.py lines 253-256), which contains
no exception handling: an OS-level accept failing with EWOULDBLOCK
propagates `socket.error` out of the callback instead of being
swallowed.  The guarded dispatch the claim describes exists only in
`Protocol._accept` (protocol.py lines 31-47, marked TODO to be moved
into the Server class), which the server never registers.  On a
successful accept both invoke the hook exactly once with the wrapped
connection. -/
theorem C2_accept_wouldblock_code_bug :
    Server.acceptCallback (.err EWOULDBLOCK) =
      .error (.socketError EWOULDBLOCK) ∧
    Protocol.acceptDispatch (.err EWOULDBLOCK) = .ok [] ∧
    Protocol.acceptDispatch (.err EAGAIN) = .ok [] ∧
    Protocol.acceptDispatch (.err ECONNABORTED) =
      .error (.socketError ECONNABORTED) ∧
    (∀ conn : Nat, Server.acceptCallback (.ok conn) = .ok [⟨conn⟩]) ∧
    (∀ conn : Nat, Protocol.acceptDispatch (.ok conn) = .ok [⟨conn⟩]) := by
  refine ⟨rfl, rfl, rfl, rfl, fun conn => rfl, fun conn => rfl⟩

/-- C5: In `Server._socket`, when system name resolution fails
(`socket.getaddrinfo` raises `gaierror`, embedded as `resolution = none`),
a host containing a colon falls back to an IPv6 literal address (family
AF_INET6, address (host, port, 0, 0)) and a host without a colon falls
back to an IPv4 literal address (family AF_INET, address (host, port)). -/
theorem C5_resolution_fallback (host : String) (port : Nat)
    (resolution : Option AddrInfo) (h : resolution = none) :
    Server.resolveAddr host port resolution =
      (if host.data.contains ':' then
        (Family.af_inet6, SockAddr.v6 host port 0 0)
       else (Family.af_inet, SockAddr.v4 host port)) := by
  subst h
  rfl

/-- C5 witness: concrete instances of the fallback, one host with a
colon and one without. -/
theorem C5_resolution_fallback_witness :
    Server.resolveAddr "fe80::1" 8080 none =
      (if ("fe80::1").data.contains ':' then
        (Family.af_inet6, SockAddr.v6 "fe80::1" 8080 0 0)
       else (Family.af_inet, SockAddr.v4 "fe80::1" 8080)) ∧
    Server.resolveAddr "127.0.0.1" 80 none =
      (if ("127.0.0.1").data.contains ':' then
        (Family.af_inet6, SockAddr.v6 "127.0.0.1" 80 0 0)
       else (Family.af_inet, SockAddr.v4 "127.0.0.1" 80)) :=
  ⟨C5_resolution_fallback "fe80::1" 8080 none rfl,
   C5_resolution_fallback "127.0.0.1" 80 none rfl⟩

/-- C7: When the resolved family is IPv6 and the bind host is one of the
unspecified any-address spellings the source checks for, `Server._socket`
attempts to clear IPV6_V6ONLY; whether or not the platform accepts the
option (raising AttributeError or socket.error when it does not), socket
creation succeeds and returns the configured non-blocking, reuse-address,
no-delay, close-on-exec socket, with dual stack enabled exactly when the
toggle succeeded. -/
theorem C7_dual_stack_toggle_nonfatal (host : String) (port : Nat)
    (env : SocketEnv)
    (hfam : Server.resolveFamily host port env.resolution = .af_inet6)
    (hany : host = "::" ∨ host = "::0" ∨ host = "::0.0.0.0")
    (hcreate : env.createFails = false) :
    Server.socketFactory host port env =
      .ok ({ family := .af_inet6, cloexec := true, reuseAddr := true,
             noDelay := true, blocking := false,
             v6only := env.v6onlyToggleFails }, true) := by
  unfold Server.socketFactory
  rw [hcreate, if_neg (by simp), if_pos ⟨hfam, hany⟩]
  cases h : env.v6onlyToggleFails <;> simp [h, hfam]

/-- C7 witness: binding the IPv6 any address on a platform that rejects
the IPV6_V6ONLY option still yields a configured socket, with the toggle
attempted and IPv6-only mode left in place. -/
theorem C7_dual_stack_toggle_nonfatal_witness :
    Server.socketFactory "::" 80 ⟨none, false, true⟩ =
      .ok ({ family := .af_inet6, cloexec := true, reuseAddr := true,
             noDelay := true, blocking := false, v6only := true }, true) :=
  C7_dual_stack_toggle_nonfatal "::" 80 ⟨none, false, true⟩ (by decide)
    (Or.inl rfl) rfl

/-- C6: The claim says the callback lists are per-instance state set at
construction.  In the source `callbacks` is a class attribute (base.py
line 49) and `__init__` (lines 51-79) never assigns `self.callbacks`, so
under Python attribute lookup every instance mutates the one class-level
container: registering a stop callback through one freshly constructed
instance is observable by reading the list through another freshly
constructed instance.  Starting from empty class-level lists, the second
instance observes the callback registered through the first. -/
theorem C6_callbacks_shared_counterexample :
    Server.readStopCallbacks
      (Server.registerStopCallback ⟨[], []⟩ Server.init 7).1 Server.init =
      [7] ∧
    Server.readStopCallbacks ⟨[], []⟩ Server.init = [] := by
  decide

/-- C6 amended: the callbacks container is class-level shared state.
For any two instances with no instance-level `callbacks` binding (the
state `__init__` leaves every instance in), a registration through one
appends to the single class-level list and is observed through the
other. -/
theorem C6_callbacks_class_level (h : CallbacksHeap) (cb : Nat)
    (s1 s2 : ServerObj) (h1 : s1.ownCallbacks = none)
    (h2 : s2.ownCallbacks = none) :
    Server.readStopCallbacks (Server.registerStopCallback h s1 cb).1 s2 =
      Server.readStopCallbacks h s2 ++ [cb] ∧
    Server.init.ownCallbacks = none := by
  refine ⟨?_, rfl⟩
  unfold Server.registerStopCallback Server.readStopCallbacks
  rw [h1, h2]

/-- C6 amended witness: concrete shared observation through two freshly
constructed instances over a class heap already holding one callback. -/
theorem C6_callbacks_class_level_witness :
    Server.readStopCallbacks
      (Server.registerStopCallback ⟨[], [5]⟩ Server.init 9).1 Server.init =
      Server.readStopCallbacks ⟨[], [5]⟩ Server.init ++ [9] ∧
    Server.init.ownCallbacks = none :=
  C6_callbacks_class_level ⟨[], [5]⟩ 9 Server.init Server.init rfl rfl

/-- Counting any event other than a stop callback over the callback
segment of a stop trace gives zero. -/
lemma count_stopCallback_map_eq_zero (e : StopEv) (n : Nat)
    (h : ∀ i, e ≠ StopEv.stopCallback i) :
    ((List.range n).map StopEv.stopCallback).count e = 0 := by
  apply List.count_eq_zero.mpr
  simp only [List.mem_map, List.mem_range, not_exists]
  rintro x ⟨_, hx⟩
  exact h x hx.symm

/-- C3: The claim states the cascade protocol stop, deregistration,
stop hooks, reactor teardown.  In the source (base.py lines 196-215) the
deregistration line is commented out and the reactor is stopped before
the stop hooks run: with an attached reactor, no thread pool and one
registered stop callback, `stop()` performs protocol stop, reactor stop,
then the callback, and no deregistration event occurs at all. -/
theorem C3_stop_order_counterexample :
    Server.stopTrace ⟨false, true, 1⟩ false false =
      [StopEv.protocolStop, StopEv.ioLoopStop, StopEv.stopCallback 0] ∧
    (Server.stopTrace ⟨false, true, 1⟩ false false).count
      StopEv.removeHandler = 0 := by
  decide

/-- C3 amended: with the reactor attached and no explicit io_loop
argument, `stop()` executes, exactly once each, the protocol stop hook
immediately followed by reactor teardown, then the server-level stop
callbacks in registration order; nothing before the protocol stop hook
except the optional thread-pool shutdown; the accept callback is never
deregistered and the socket is never closed on this path. -/
theorem C3_stop_cascade_amended (s : StopState) (close ioLoopArg : Bool)
    (hio : s.ioLoopAttached = true) (harg : ioLoopArg = false) :
    (Server.stopTrace s close ioLoopArg).count StopEv.protocolStop = 1 ∧
    (Server.stopTrace s close ioLoopArg).count StopEv.ioLoopStop = 1 ∧
    (Server.stopTrace s close ioLoopArg).count StopEv.removeHandler = 0 ∧
    (Server.stopTrace s close ioLoopArg).count StopEv.socketClose = 0 ∧
    (∃ pre, Server.stopTrace s close ioLoopArg =
        pre ++ [StopEv.protocolStop, StopEv.ioLoopStop] ++
          (List.range s.nStopCallbacks).map StopEv.stopCallback ∧
      (∀ e, e ∈ pre → e = StopEv.executorShutdown)) := by
  subst harg
  obtain ⟨t, a, n⟩ := s
  simp only at hio
  subst hio
  refine ⟨?_, ?_, ?_, ?_, ?_⟩
  case _ =>
    cases t <;>
      simp [Server.stopTrace, List.count_append, List.count_cons,
        count_stopCallback_map_eq_zero StopEv.protocolStop n
          (fun i h => StopEv.noConfusion h)]
  case _ =>
    cases t <;>
      simp [Server.stopTrace, List.count_append, List.count_cons,
        count_stopCallback_map_eq_zero StopEv.ioLoopStop n
          (fun i h => StopEv.noConfusion h)]
  case _ =>
    cases t <;>
      simp [Server.stopTrace, List.count_append, List.count_cons,
        count_stopCallback_map_eq_zero StopEv.removeHandler n
          (fun i h => StopEv.noConfusion h)]
  case _ =>
    cases t <;>
      simp [Server.stopTrace, List.count_append, List.count_cons,
        count_stopCallback_map_eq_zero StopEv.socketClose n
          (fun i h => StopEv.noConfusion h)]
  case _ =>
    refine ⟨if t then [StopEv.executorShutdown] else [], ?_, ?_⟩
    · cases t <;> simp [Server.stopTrace]
    · intro e he
      cases t <;> simp at he
      exact he

/-- C3 amended witness: the cascade at a concrete state with a thread
pool and two registered stop callbacks. -/
theorem C3_stop_cascade_amended_witness :
    (Server.stopTrace ⟨true, true, 2⟩ false false).count
      StopEv.protocolStop = 1 ∧
    (Server.stopTrace ⟨true, true, 2⟩ false false).count
      StopEv.ioLoopStop = 1 ∧
    (Server.stopTrace ⟨true, true, 2⟩ false false).count
      StopEv.removeHandler = 0 ∧
    (Server.stopTrace ⟨true, true, 2⟩ false false).count
      StopEv.socketClose = 0 ∧
    (∃ pre, Server.stopTrace ⟨true, true, 2⟩ false false =
        pre ++ [StopEv.protocolStop, StopEv.ioLoopStop] ++
          (List.range 2).map StopEv.stopCallback ∧
      (∀ e, e ∈ pre → e = StopEv.executorShutdown)) :=
  C3_stop_cascade_amended ⟨true, true, 2⟩ false false rfl rfl

/-- C4: The claim states a second `stop()` call invokes no hook again.
The source keeps every attribute intact across a call (stop assigns
nothing), so a second call repeats the whole cascade: with an attached
reactor and one registered stop callback, the protocol stop hook runs
twice over the two calls and the hook invocations are duplicated. -/
theorem C4_stop_idempotence_counterexample :
    (Server.stopTwiceTrace ⟨false, true, 1⟩).count StopEv.protocolStop = 2 ∧
    (Server.stopTwiceTrace ⟨false, true, 1⟩).filter
        (fun e => e.isHook) =
      [StopEv.protocolStop, StopEv.stopCallback 0,
       StopEv.protocolStop, StopEv.stopCallback 0] := by
  decide

/-- C4 amended: a second `stop()` call raises no exception (the embedded
run is total and leaves the state unchanged), but with the reactor
attached it re-invokes the protocol stop hook and every registered stop
callback a second time: the hook events of two consecutive calls are two
copies of the hook events of one call, and the protocol stop hook runs
exactly once per call. -/
theorem C4_stop_second_call_reinvokes (s : StopState)
    (hio : s.ioLoopAttached = true) :
    (Server.stopRun s false false).2 = s ∧
    (Server.stopTwiceTrace s).filter (fun e => e.isHook) =
      (Server.stopRun s false false).1.filter (fun e => e.isHook) ++
      (Server.stopRun s false false).1.filter (fun e => e.isHook) ∧
    (Server.stopRun s false false).1.count StopEv.protocolStop = 1 ∧
    (Server.stopTwiceTrace s).count StopEv.protocolStop = 2 := by
  obtain ⟨t, a, n⟩ := s
  simp only at hio
  subst hio
  refine ⟨rfl, ?_, ?_, ?_⟩
  · simp [Server.stopTwiceTrace, Server.stopRun, List.filter_append]
  · cases t <;>
      simp [Server.stopRun, Server.stopTrace, List.count_append,
        List.count_cons,
        count_stopCallback_map_eq_zero StopEv.protocolStop n
          (fun i h => StopEv.noConfusion h)]
  · cases t <;>
      simp [Server.stopTwiceTrace, Server.stopRun, Server.stopTrace,
        List.count_append, List.count_cons,
        count_stopCallback_map_eq_zero StopEv.protocolStop n
          (fun i h => StopEv.noConfusion h)]

/-- C4 amended witness: the duplicated cascade at a concrete state with
a thread pool and three registered stop callbacks. -/
theorem C4_stop_second_call_reinvokes_witness :
    (Server.stopRun ⟨true, true, 3⟩ false false).2 = ⟨true, true, 3⟩ ∧
    (Server.stopTwiceTrace ⟨true, true, 3⟩).filter (fun e => e.isHook) =
      (Server.stopRun ⟨true, true, 3⟩ false false).1.filter
        (fun e => e.isHook) ++
      (Server.stopRun ⟨true, true, 3⟩ false false).1.filter
        (fun e => e.isHook) ∧
    (Server.stopRun ⟨true, true, 3⟩ false false).1.count
      StopEv.protocolStop = 1 ∧
    (Server.stopTwiceTrace ⟨true, true, 3⟩).count StopEv.protocolStop = 2 :=
  C4_stop_second_call_reinvokes ⟨true, true, 3⟩ rfl

/-- Counting an element that a map can never produce gives zero. -/
lemma count_map_eq_zero {α β : Type} [DecidableEq β] (f : α → β)
    (l : List α) (e : β) (h : ∀ a, e ≠ f a) : (l.map f).count e = 0 := by
  apply List.count_eq_zero.mpr
  simp only [List.mem_map, not_exists]
  rintro a ⟨_, ha⟩
  exact h a ha.symm

/-- C8: In the multi-process path of `Server.start` (lines 167-177), a
forked child reseeds the process-local generator with the 16 urandom
bytes read as an integer, or, when `os.urandom` raises
NotImplementedError, with the millisecond clock XOR the process id; it
then serves as a worker (`serve(False)`) and returns, performing no
further fork. -/
theorem C8_child_reseed_and_serve (env : ChildEnv) :
    Server.childContinuation env =
      [ChildEv.seed (if env.urandomAvailable then hexlifyVal env.urandomBytes
                     else env.timeMs ^^^ env.pid),
       ChildEv.serve false] ∧
    (Server.childContinuation env).count ChildEv.forkChild = 0 ∧
    (Server.childContinuation env).count (ChildEv.serve false) = 1 ∧
    (Server.childContinuation env).count (ChildEv.serve true) = 0 := by
  cases h : env.urandomAvailable <;>
    simp [Server.childContinuation, h, List.count_cons]

/-- Counting any event other than a start callback over the callback
segment of a serve trace gives zero. -/
lemma count_serveTrace_eq_zero (e : StartEv) (pc : Bool) (n : Nat)
    (h1 : e ≠ StartEv.instantiateProtocol)
    (h2 : e ≠ StartEv.protocolStart)
    (h3 : e ≠ StartEv.addHandler)
    (h4 : ∀ i, e ≠ StartEv.startCallback i) :
    (Server.serveTrace pc n).count e = 0 := by
  cases pc <;>
    simp [Server.serveTrace, List.count_append, List.count_cons,
      count_map_eq_zero StartEv.startCallback _ e h4, h1, h2, h3]

/-- C9: In every process role of `Server.start`, the trace splits as a
prefix holding the bind and listen steps (and, for a forked worker,
every fork step) and a suffix free of bind, listen and fork steps, with
no accept-callback registration in the prefix: the socket is bound and
listening, and forking has happened, strictly before `serve` registers
the accept callback with the reactor. -/
theorem C9_bind_listen_before_registration (forkResolved : Nat)
    (role : ProcRole) (protocolIsClass : Bool) (nStartCallbacks : Nat) :
    ∃ pre post,
      Server.startTrace forkResolved role protocolIsClass nStartCallbacks =
        pre ++ post ∧
      StartEv.bind ∈ pre ∧
      StartEv.listen ∈ pre ∧
      pre.count StartEv.addHandler = 0 ∧
      post.count StartEv.bind = 0 ∧
      post.count StartEv.listen = 0 ∧
      (∀ i, post.count (StartEv.forkProc i) = 0) := by
  by_cases hf : forkResolved = 1
  · refine ⟨[StartEv.createSocket, StartEv.bind, StartEv.listen],
      Server.serveTrace protocolIsClass nStartCallbacks,
      by simp [Server.startTrace, hf], by simp, by simp, by decide,
      ?_, ?_, ?_⟩
    · exact count_serveTrace_eq_zero _ _ _ (by intro h; cases h)
        (by intro h; cases h) (by intro h; cases h)
        (fun i h => StartEv.noConfusion h)
    · exact count_serveTrace_eq_zero _ _ _ (by intro h; cases h)
        (by intro h; cases h) (by intro h; cases h)
        (fun i h => StartEv.noConfusion h)
    · intro i
      exact count_serveTrace_eq_zero _ _ _ (by intro h; cases h)
        (by intro h; cases h) (by intro h; cases h)
        (fun j h => StartEv.noConfusion h)
  · match role with
    | .child i =>
        refine ⟨[StartEv.createSocket, StartEv.bind, StartEv.listen] ++
          ((List.range (i + 1)).map StartEv.forkProc) ++ [StartEv.seedChild],
          Server.serveTrace protocolIsClass nStartCallbacks,
          by simp [Server.startTrace, hf], by simp, by simp, ?_, ?_, ?_, ?_⟩
        · simp [List.count_append, List.count_cons,
            count_map_eq_zero StartEv.forkProc _ StartEv.addHandler
              (fun a h => StartEv.noConfusion h)]
        · exact count_serveTrace_eq_zero _ _ _ (by intro h; cases h)
            (by intro h; cases h) (by intro h; cases h)
            (fun j h => StartEv.noConfusion h)
        · exact count_serveTrace_eq_zero _ _ _ (by intro h; cases h)
            (by intro h; cases h) (by intro h; cases h)
            (fun j h => StartEv.noConfusion h)
        · intro j
          exact count_serveTrace_eq_zero _ _ _ (by intro h; cases h)
            (by intro h; cases h) (by intro h; cases h)
            (fun k h => StartEv.noConfusion h)
    | .master =>
        refine ⟨[StartEv.createSocket, StartEv.bind, StartEv.listen] ++
          ((List.range forkResolved).map StartEv.forkProc) ++
          [StartEv.waitChildren, StartEv.stopCascade], [],
          by simp [Server.startTrace, hf], by simp, by simp, ?_,
          by simp, by simp, fun i => by simp⟩
        simp [List.count_append, List.count_cons,
          count_map_eq_zero StartEv.forkProc _ StartEv.addHandler
            (fun a h => StartEv.noConfusion h)]

/-- C10: The first `serve()` call on a server constructed with a
protocol class instantiates it exactly once, with the server as first
positional argument and the raw `io_loop` parameter as second positional
argument - which `Protocol.__init__` binds to `testing`, so an
explicitly supplied loop lands in the `testing` attribute instead of its
default False - forwarding the free-form options; a second call performs
no further instantiation. -/
theorem C10_protocol_instantiation (server l : Nat)
    (options : List (String × Nat)) :
    Server.serveInstantiate ProtocolSlot.cls server (some l) options =
      (ProtocolSlot.inst (Protocol.init server (PyVal.vLoop l) options), 1) ∧
    (Protocol.init server (PyVal.vLoop l) options).server = server ∧
    (Protocol.init server (PyVal.vLoop l) options).testing = PyVal.vLoop l ∧
    (Protocol.init server (PyVal.vLoop l) options).options = options ∧
    Protocol.testingDefault = PyVal.vFalse ∧
    (PyVal.vLoop l == Protocol.testingDefault) = false ∧
    Server.serveInstantiate
        (Server.serveInstantiate ProtocolSlot.cls server (some l) options).1
        server (some l) options =
      ((Server.serveInstantiate ProtocolSlot.cls server (some l) options).1,
        0) := by
  refine ⟨rfl, rfl, rfl, rfl, rfl, rfl, rfl⟩

end Marrow
